import Mathlib

/-!
Shallow embedding of the TaskNest reminder/auth core (src/app.py, src/models.py).

Instants are modelled as integer seconds.  Python `datetime` values carry a
tz-awareness flag: comparing or subtracting a naive and an aware datetime
raises `TypeError` in Python, which the embedding models with `Except`.
Database rows are Lean structures, the session is explicit state passing,
and each route handler is a pure function from its validated form inputs and
the current store to the new store plus the observable response.
-/

namespace TaskNest

/-- Python runtime errors that the embedded code can raise. -/
inductive PyError
  | typeError
deriving Repr, DecidableEq

/-- A Python `datetime`: an instant in seconds plus whether it is
timezone-aware (`datetime.now(timezone.utc)`) or naive (`datetime.now()`,
form fields). -/
structure PyDateTime where
  t : Int
  aware : Bool
deriving Repr, DecidableEq

/-- `a <= b` on datetimes; raises `TypeError` when awareness differs. -/
def PyDateTime.pyLe (a b : PyDateTime) : Except PyError Bool :=
  if a.aware = b.aware then .ok (decide (a.t ≤ b.t)) else .error .typeError

/-- `a > b` on datetimes; raises `TypeError` when awareness differs. -/
def PyDateTime.pyGt (a b : PyDateTime) : Except PyError Bool :=
  if a.aware = b.aware then .ok (decide (b.t < a.t)) else .error .typeError

/-- `a - b` on two datetimes, a `timedelta` in seconds; raises `TypeError`
when awareness differs. -/
def PyDateTime.pySub (a b : PyDateTime) : Except PyError Int :=
  if a.aware = b.aware then .ok (a.t - b.t) else .error .typeError

/-- `a - timedelta`: keeps the awareness of `a`. -/
def PyDateTime.subDelta (a : PyDateTime) (d : Int) : PyDateTime :=
  ⟨a.t - d, a.aware⟩

/-- `a.replace(tzinfo=None)`. -/
def PyDateTime.replaceTzNone (a : PyDateTime) : PyDateTime :=
  ⟨a.t, false⟩

/-! ### models.py: User -/

/-- `models.User` (the columns the auth core reads and writes). -/
structure User where
  id : Nat
  username : String
  email : String
  password_hash : String
  full_name : Option String
  failed_login_attempts : Nat
  account_locked_until : Option Int
  two_factor_enabled : Bool
  last_login : Option Int
deriving Repr, DecidableEq

/-- `User.is_account_locked` (models.py): returns whether the account is
locked right now and the user row as left in the database (the method
clears and commits an expired lockout as a side effect). -/
def User.is_account_locked (u : User) (now : Int) : Bool × User :=
  match u.account_locked_until with
  | some t =>
      if now < t then (true, u)
      else (false, { u with account_locked_until := none, failed_login_attempts := 0 })
  | none => (false, u)

/-! ### app.py: login route -/

/-- Observable outcome of one POST to the login route. -/
inductive LoginOutcome
  | invalidCreds
  | lockedOut (minutes : Int)
  | lockedNow
  | wrongPassword (remaining : Nat)
  | needsSecondFactor
  | success (name : String)
deriving Repr, DecidableEq

/-- The flash message the login route shows for each outcome
(`needsSecondFactor` redirects without flashing). -/
def flashMessage : LoginOutcome → String
  | .invalidCreds => "Invalid username or password."
  | .lockedOut m =>
      "Account is locked due to multiple failed login attempts. Try again in "
        ++ toString m ++ " minutes."
  | .lockedNow =>
      "Account locked due to too many failed login attempts. Please try again in 15 minutes."
  | .wrongPassword r =>
      "Invalid password. " ++ toString r ++ " attempts remaining before account lockout."
  | .needsSecondFactor => ""
  | .success n => "Welcome back, " ++ n ++ "!"

/-- `User.query.filter_by(username=...).first()`. -/
def findUser (db : List User) (username : String) : Option User :=
  db.find? (fun v => v.username == username)

/-- Committing a mutated user row: the ORM writes back by primary key. -/
def storeUser (db : List User) (u : User) : List User :=
  db.map (fun v => if v.id == u.id then u else v)

/-- The login route (app.py lines 161-217), after form validation.  `check`
is the werkzeug `check_password_hash`, an external collaborator, so it is a
parameter.  Returns the observable outcome and the user table as committed. -/
def login (check : String → String → Bool) (now : Int) (username password : String)
    (db : List User) : LoginOutcome × List User :=
  match findUser db username with
  | none => (.invalidCreds, db)
  | some user =>
    let lockres := user.is_account_locked now
    let user1 := lockres.2
    let db1 := storeUser db user1
    if lockres.1 then
      -- in this branch account_locked_until is always set, so getD never
      -- takes its default; int() truncates, and the remainder is positive
      (.lockedOut (Int.tdiv ((user1.account_locked_until.getD now) - now) 60), db1)
    else if check user1.password_hash password = false then
      let user2 := { user1 with failed_login_attempts := user1.failed_login_attempts + 1 }
      if user2.failed_login_attempts ≥ 5 then
        let user3 := { user2 with account_locked_until := some (now + 15 * 60) }
        (.lockedNow, storeUser db1 user3)
      else
        (.wrongPassword (5 - user2.failed_login_attempts), storeUser db1 user2)
    else
      let user2 := { user1 with failed_login_attempts := 0, account_locked_until := none }
      if user2.two_factor_enabled then
        (.needsSecondFactor, storeUser db1 user2)
      else
        let user3 := { user2 with last_login := some now }
        (.success (match user3.full_name with
                   | some n => if n = "" then user3.username else n
                   | none => user3.username), storeUser db1 user3)

/-! ### models.py: Task, Reminder, Progress -/

/-- `models.Task`. -/
structure Task where
  id : Nat
  title : String
  description : Option String
  category : String
  priority : String
  status : String
  deadline : Int
  created_at : Int
  updated_at : Int
  completed_at : Option Int
  user_id : Nat
deriving Repr, DecidableEq

/-- `models.Reminder`. -/
structure Reminder where
  id : Nat
  title : String
  message : Option String
  reminder_time : Int
  is_sent : Bool
  user_id : Nat
  task_id : Option Nat
deriving Repr, DecidableEq

/-- `models.Progress` (append-only history rows). -/
structure Progress where
  progress_percentage : Nat
  notes : Option String
  recorded_at : Int
  user_id : Nat
  task_id : Nat
deriving Repr, DecidableEq

/-- The persistent store for the task/reminder subsystem; the `next...`
counters model the autoincrementing primary keys. -/
structure Store where
  tasks : List Task
  reminders : List Reminder
  progress : List Progress
  nextTaskId : Nat
  nextReminderId : Nat
deriving Repr, DecidableEq

/-- Observable response of the task/reminder route handlers. -/
inductive RouteResponse
  | ok
  | created
  | validationError
  | errorFlash
  | unauthorized
  | notFound
  | badRequest
deriving Repr, DecidableEq

/-! ### app.py: reminder poller and reminder routes -/

/-- The due-unsent predicate of the poller query
(`Reminder.reminder_time <= now, Reminder.is_sent == False`). -/
def reminderDue (now : Int) (r : Reminder) : Bool :=
  decide (r.reminder_time ≤ now) && r.is_sent == false

/-- The per-row effect of one poller tick: the loop body
`reminder.is_sent = True` applied to exactly the due rows. -/
def tickUpd (now : Int) (r : Reminder) : Reminder :=
  if reminderDue now r then { r with is_sent := true } else r

/-- `check_reminders` (app.py lines 40-75): one poller tick.  Returns the
store after the tick and the list of reminders for which a delivery
notification was emitted. -/
def check_reminders (now : Int) (s : Store) : Store × List Reminder :=
  let pending := s.reminders.filter (reminderDue now)
  if pending.isEmpty then (s, [])
  else
    ({ s with reminders := s.reminders.map (tickUpd now) }, pending)

/-- The row update of the mark-seen handler: `reminder.is_sent = True`
committed back by primary key. -/
def markSeenUpd (rid : Nat) (q : Reminder) : Reminder :=
  if q.id == rid then { q with is_sent := true } else q

/-- `mark_reminder_seen` (app.py lines 791-810): the POST
api/mark-reminder-seen handler for user `uid`. -/
def mark_reminder_seen (uid rid : Nat) (s : Store) : Store × RouteResponse :=
  match s.reminders.find? (fun r => r.id == rid) with
  | none => (s, .notFound)
  | some r =>
    if r.user_id ≠ uid then (s, .unauthorized)
    else
      ({ s with reminders := s.reminders.map (markSeenUpd rid) }, .ok)

/-- The upcoming-unsent listing of the reminders page (app.py lines
565-577): the unsent reminders of the current user with fire time not in the
past, ordered by fire time ascending. -/
def upcoming_reminders (uid : Nat) (now : Int) (s : Store) : List Reminder :=
  (s.reminders.filter
      (fun r => r.user_id == uid && r.is_sent == false && decide (now ≤ r.reminder_time))).mergeSort
    (fun a b => decide (a.reminder_time ≤ b.reminder_time))

/-- `new_reminder` (app.py lines 580-631), after form validation.  The
submitted fire time and both clock reads arrive as the route sees them:
the form value and `datetime.now()` naive, `datetime.now(timezone.utc)`
aware. -/
def new_reminder (uid : Nat) (title : String) (message : Option String)
    (reminder_time_local_t nowL nowU : Int) (s : Store) : Store × RouteResponse :=
  let reminder_time_local : PyDateTime := ⟨reminder_time_local_t, false⟩
  let now_local : PyDateTime := ⟨nowL, false⟩
  let now_utc : PyDateTime := ⟨nowU, true⟩
  match reminder_time_local.pyLe now_local with
  | .error _ => (s, .errorFlash)
  | .ok true => (s, .validationError)
  | .ok false =>
    match now_local.pySub now_utc.replaceTzNone with
    | .error _ => (s, .errorFlash)
    | .ok utc_offset =>
      let reminder_time_utc := reminder_time_local.subDelta utc_offset
      let r : Reminder :=
        { id := s.nextReminderId, title := title, message := message,
          reminder_time := reminder_time_utc.t, is_sent := false,
          user_id := uid, task_id := none }
      ({ s with reminders := s.reminders ++ [r],
                nextReminderId := s.nextReminderId + 1 }, .created)

/-! ### app.py: task routes -/

/-- `new_task` (app.py lines 345-397), after form validation.  Each
datetime operation that Python can raise on is matched: an `.error`
result is the `except` branch, which rolls back uncommitted work and
flashes an error, keeping whatever was already committed.  Note the
task insert commits before the derived-reminder check. -/
def new_task (uid : Nat) (title : String) (description : Option String)
    (category priority : String) (deadline_local_t nowL nowU : Int) (s : Store) :
    Store × RouteResponse :=
  let deadline_local : PyDateTime := ⟨deadline_local_t, false⟩
  let now_local : PyDateTime := ⟨nowL, false⟩
  let now_utc : PyDateTime := ⟨nowU, true⟩
  match deadline_local.pyLe now_local with
  | .error _ => (s, .errorFlash)
  | .ok true => (s, .validationError)
  | .ok false =>
    match now_local.pySub now_utc.replaceTzNone with
    | .error _ => (s, .errorFlash)
    | .ok utc_offset =>
      let deadline_utc := deadline_local.subDelta utc_offset
      let task : Task :=
        { id := s.nextTaskId, title := title, description := description,
          category := category, priority := priority, status := "pending",
          deadline := deadline_utc.t, created_at := nowU, updated_at := nowU,
          completed_at := none, user_id := uid }
      let s1 := { s with tasks := s.tasks ++ [task], nextTaskId := s.nextTaskId + 1 }
      let reminder_time_utc := deadline_utc.subDelta 86400
      match reminder_time_utc.pyGt now_utc with
      | .error _ => (s1, .errorFlash)
      | .ok true =>
        -- the Python message wraps the title in single quotes
        let r : Reminder :=
          { id := s1.nextReminderId, title := "Reminder: " ++ task.title,
            message := some ("Your task " ++ task.title ++ " is due tomorrow!"),
            reminder_time := reminder_time_utc.t, is_sent := false,
            user_id := uid, task_id := some task.id }
        ({ s1 with reminders := s1.reminders ++ [r],
                   nextReminderId := s1.nextReminderId + 1 }, .created)
      | .ok false => (s1, .created)

/-- Committing a mutated task row back by primary key. -/
def storeTask (s : Store) (t : Task) : Store :=
  { s with tasks := s.tasks.map (fun q => if q.id == t.id then t else q) }

/-- `edit_task` (app.py lines 400-440), after form validation. -/
def edit_task (uid tid : Nat) (title : String) (description : Option String)
    (category priority : String) (deadline_local_t nowL nowU : Int) (s : Store) :
    Store × RouteResponse :=
  match s.tasks.find? (fun t => t.id == tid) with
  | none => (s, .notFound)
  | some task =>
    if task.user_id ≠ uid then (s, .unauthorized)
    else
      let deadline_local : PyDateTime := ⟨deadline_local_t, false⟩
      let now_local : PyDateTime := ⟨nowL, false⟩
      let now_utc : PyDateTime := ⟨nowU, true⟩
      match now_local.pySub now_utc.replaceTzNone with
      | .error _ => (s, .errorFlash)
      | .ok utc_offset =>
        let deadline_utc := deadline_local.subDelta utc_offset
        match deadline_local.pyLe now_local with
        | .error _ => (s, .errorFlash)
        | .ok notFuture =>
          if task.status ≠ "completed" ∧ notFuture then (s, .validationError)
          else
            let task1 :=
              { task with title := title, description := description,
                          category := category, priority := priority,
                          deadline := deadline_utc.t, updated_at := nowU }
            (storeTask s task1, .ok)

/-- `delete_task` (app.py lines 443-456); the ORM cascade also removes the
reminders and progress rows owned by the task. -/
def delete_task (uid tid : Nat) (s : Store) : Store × RouteResponse :=
  match s.tasks.find? (fun t => t.id == tid) with
  | none => (s, .notFound)
  | some task =>
    if task.user_id ≠ uid then (s, .unauthorized)
    else
      ({ s with tasks := s.tasks.filter (fun t => t.id ≠ tid),
                reminders := s.reminders.filter (fun r => r.task_id ≠ some tid),
                progress := s.progress.filter (fun p => p.task_id ≠ tid) }, .ok)

/-- `delete_reminder` (app.py lines 634-647). -/
def delete_reminder (uid rid : Nat) (s : Store) : Store × RouteResponse :=
  match s.reminders.find? (fun r => r.id == rid) with
  | none => (s, .notFound)
  | some r =>
    if r.user_id ≠ uid then (s, .unauthorized)
    else
      ({ s with reminders := s.reminders.filter (fun q => q.id ≠ rid) }, .ok)

/-- The most recent progress row of a task
(`order_by(Progress.recorded_at.desc()).first()`); on equal timestamps the
later-inserted row wins. -/
def latestProgress (tid : Nat) (s : Store) : Option Progress :=
  (s.progress.filter (fun p => p.task_id == tid)).foldl
    (fun acc p =>
      match acc with
      | none => some p
      | some q => if q.recorded_at ≤ p.recorded_at then some p else some q)
    none

/-- `complete_task` (app.py lines 459-487). -/
def complete_task (uid tid : Nat) (now : Int) (s : Store) : Store × RouteResponse :=
  match s.tasks.find? (fun t => t.id == tid) with
  | none => (s, .notFound)
  | some task =>
    if task.user_id ≠ uid then (s, .unauthorized)
    else
      let task1 := { task with status := "completed", completed_at := some now }
      let needProgress :=
        match latestProgress tid s with
        | none => true
        | some p => p.progress_percentage ≠ 100
      let s1 := storeTask s task1
      let s2 :=
        if needProgress then
          { s1 with progress := s1.progress ++
              [{ progress_percentage := 100, notes := some "Task completed",
                 recorded_at := now, user_id := uid, task_id := task.id }] }
        else s1
      (s2, .ok)

/-- `update_task_status` (app.py lines 490-520). -/
def update_task_status (uid tid : Nat) (now : Int) (new_status : String) (s : Store) :
    Store × RouteResponse :=
  match s.tasks.find? (fun t => t.id == tid) with
  | none => (s, .notFound)
  | some task =>
    if task.user_id ≠ uid then (s, .unauthorized)
    else if ¬ (new_status = "pending" ∨ new_status = "in_progress" ∨ new_status = "completed")
    then (s, .badRequest)
    else
      let task1 :=
        { task with status := new_status,
                    completed_at := if new_status = "completed" then some now else none,
                    updated_at := now }
      (storeTask s task1, .ok)

/-- `task_progress` (app.py lines 523-562), after form validation: append a
progress row and derive the status transition. -/
def task_progress (uid tid : Nat) (now : Int) (pct : Nat) (notes : Option String)
    (s : Store) : Store × RouteResponse :=
  match s.tasks.find? (fun t => t.id == tid) with
  | none => (s, .notFound)
  | some task =>
    if task.user_id ≠ uid then (s, .unauthorized)
    else
      let p : Progress :=
        { progress_percentage := pct, notes := notes, recorded_at := now,
          user_id := uid, task_id := task.id }
      let task1 :=
        if pct == 100 then { task with status := "completed", completed_at := some now }
        else if decide (0 < pct) && task.status == "pending" then
          { task with status := "in_progress" }
        else task
      let task2 := { task1 with updated_at := now }
      ({ s with tasks := s.tasks.map (fun t => if t.id == tid then task2 else t),
                progress := s.progress ++ [p] }, .ok)

/-! ### The store-level operations of the system, as one step type -/

/-- One invocation of any handler that can touch the task/reminder store:
a poller tick, the mark-seen API call, reminder creation, task creation,
task edits, progress and status updates, completion, and deletions. -/
inductive Op
  | tick (now : Int)
  | markSeen (uid rid : Nat)
  | newReminder (uid : Nat) (title : String) (message : Option String) (tl nl nu : Int)
  | newTask (uid : Nat) (title : String) (description : Option String)
      (category priority : String) (dl nl nu : Int)
  | editTask (uid tid : Nat) (title : String) (description : Option String)
      (category priority : String) (dl nl nu : Int)
  | progressUpdate (uid tid : Nat) (now : Int) (pct : Nat) (notes : Option String)
  | statusUpdate (uid tid : Nat) (now : Int) (st : String)
  | completeTask (uid tid : Nat) (now : Int)
  | deleteTask (uid tid : Nat)
  | deleteReminder (uid rid : Nat)

/-- The store reached after one operation. -/
def applyOp (op : Op) (s : Store) : Store :=
  match op with
  | .tick now => (check_reminders now s).1
  | .markSeen uid rid => (mark_reminder_seen uid rid s).1
  | .newReminder uid title message tl nl nu => (new_reminder uid title message tl nl nu s).1
  | .newTask uid title d c p dl nl nu => (new_task uid title d c p dl nl nu s).1
  | .editTask uid tid title d c p dl nl nu => (edit_task uid tid title d c p dl nl nu s).1
  | .progressUpdate uid tid now pct notes => (task_progress uid tid now pct notes s).1
  | .statusUpdate uid tid now st => (update_task_status uid tid now st s).1
  | .completeTask uid tid now => (complete_task uid tid now s).1
  | .deleteTask uid tid => (delete_task uid tid s).1
  | .deleteReminder uid rid => (delete_reminder uid rid s).1

/-- The store reached after a sequence of operations. -/
def applyOps (ops : List Op) (s : Store) : Store :=
  ops.foldl (fun s op => applyOp op s) s

/-! ### Helper lemmas -/

theorem find_map_pred {α : Type} (p : α → Bool) (g : α → α) (l : List α)
    (hg : ∀ x, p (g x) = p x) :
    (l.map g).find? p = (l.find? p).map g := by
  rw [List.find?_map]
  have hpg : p ∘ g = p := funext hg
  rw [hpg]

theorem findUser_storeUser (db : List User) (uname : String) (u u' : User)
    (h : findUser db uname = some u) (hid : u'.id = u.id) (hname : u'.username = uname) :
    findUser (storeUser db u') uname = some u' := by
  have hp' : (u'.username == uname) = true := by simp [hname]
  induction db with
  | nil => simp [findUser] at h
  | cons v rest ih =>
    simp only [findUser, storeUser, List.map_cons] at h ih ⊢
    by_cases hv : (v.username == uname) = true
    · rw [@List.find?_cons_of_pos _ (fun w => w.username == uname) v rest hv] at h
      have hvu : v = u := by injection h
      have hvid : (v.id == u'.id) = true := by simp [hvu, hid]
      simp only [hvid, ite_true]
      exact @List.find?_cons_of_pos _ (fun w => w.username == uname) u' _ hp'
    · rw [@List.find?_cons_of_neg _ (fun w => w.username == uname) v rest hv] at h
      by_cases hvid : (v.id == u'.id) = true
      · simp only [hvid, ite_true]
        exact @List.find?_cons_of_pos _ (fun w => w.username == uname) u' _ hp'
      · simp only [Bool.not_eq_true] at hvid
        simp only [hvid, Bool.false_eq_true, if_false]
        rw [@List.find?_cons_of_neg _ (fun w => w.username == uname) v _ hv]
        exact ih h

theorem is_account_locked_none (u : User) (now : Int)
    (h : u.account_locked_until = none) : u.is_account_locked now = (false, u) := by
  simp [User.is_account_locked, h]

theorem is_account_locked_active (u : User) (now t : Int)
    (h : u.account_locked_until = some t) (hfut : now < t) :
    u.is_account_locked now = (true, u) := by
  simp [User.is_account_locked, h, hfut]

theorem is_account_locked_expired (u : User) (now t : Int)
    (h : u.account_locked_until = some t) (hpast : t ≤ now) :
    u.is_account_locked now =
      (false, { u with account_locked_until := none, failed_login_attempts := 0 }) := by
  simp [User.is_account_locked, h]
  omega

theorem login_locked_single (check : String → String → Bool) (now : Int) (pw : String)
    (u : User) (t : Int) (hl : u.account_locked_until = some t) (hfut : now < t) :
    login check now u.username pw [u] =
      (.lockedOut (Int.tdiv (t - now) 60), [u]) := by
  simp [login, findUser, is_account_locked_active u now t hl hfut, hl, storeUser]

theorem login_wrong_single (check : String → String → Bool) (now : Int) (pw : String)
    (u : User) (hl : u.account_locked_until = none)
    (hpw : check u.password_hash pw = false)
    (hlt : u.failed_login_attempts + 1 < 5) :
    login check now u.username pw [u] =
      (.wrongPassword (5 - (u.failed_login_attempts + 1)),
       [{ u with failed_login_attempts := u.failed_login_attempts + 1 }]) := by
  have h5 : ¬ (5 ≤ u.failed_login_attempts + 1) := by omega
  simp [login, findUser, is_account_locked_none u now hl, hpw, h5, storeUser]

theorem login_wrong_fifth (check : String → String → Bool) (now : Int) (pw : String)
    (u : User) (hl : u.account_locked_until = none)
    (hpw : check u.password_hash pw = false)
    (hge : 5 ≤ u.failed_login_attempts + 1) :
    login check now u.username pw [u] =
      (.lockedNow,
       [{ u with failed_login_attempts := u.failed_login_attempts + 1,
                 account_locked_until := some (now + 15 * 60) }]) := by
  simp [login, findUser, is_account_locked_none u now hl, hpw, hge, storeUser]

theorem invalid_messages_differ (n : Nat) :
    "Invalid username or password." ≠
      "Invalid password. " ++ toString n ++ " attempts remaining before account lockout." := by
  intro h
  have h2 := congrArg String.length h
  rw [String.length_append, String.length_append] at h2
  have hL : ("Invalid username or password." : String).length = 29 := by decide
  have hA : ("Invalid password. " : String).length = 18 := by decide
  have hB : (" attempts remaining before account lockout." : String).length = 43 := by decide
  rw [hL, hA, hB] at h2
  omega

/-! ### Claim C1 -/

/-- A registered user with no prior failures, for concrete evaluations. -/
def aliceC1 : User :=
  { id := 1, username := "alice", email := "alice@example.com", password_hash := "h1",
    full_name := none, failed_login_attempts := 0, account_locked_until := none,
    two_factor_enabled := false, last_login := none }

/-- C1 fails on the code: an unknown username and a wrong password for an
existing user flash different messages, so the two failure runs are
observably distinct. -/
theorem C1_counterexample :
    flashMessage (login (fun _ _ => false) 0 "bob" "pw" [aliceC1]).1 ≠
      flashMessage (login (fun _ _ => false) 0 "alice" "pw" [aliceC1]).1 := by decide

/-- C1 (amended): an unknown username is rejected with the generic
invalid-credentials message, but a wrong password for an existing,
unlocked account below the lockout threshold is rejected with a different,
password-specific message reporting the remaining attempts — the two
failure responses are observably distinguishable, not identical. -/
theorem C1_failure_responses_differ
    (check : String → String → Bool) (now now2 : Int) (db : List User)
    (ghost pw pw2 : String) (u : User)
    (hnone : findUser db ghost = none)
    (hu : findUser db u.username = some u)
    (hlock : u.account_locked_until = none)
    (hpw : check u.password_hash pw2 = false)
    (hcnt : u.failed_login_attempts + 1 < 5) :
    flashMessage (login check now ghost pw db).1 = "Invalid username or password." ∧
    flashMessage (login check now2 u.username pw2 db).1 =
      "Invalid password. " ++ toString (5 - (u.failed_login_attempts + 1)) ++
        " attempts remaining before account lockout." ∧
    flashMessage (login check now ghost pw db).1 ≠
      flashMessage (login check now2 u.username pw2 db).1 := by
  have h5 : ¬ (5 ≤ u.failed_login_attempts + 1) := by omega
  have e1 : flashMessage (login check now ghost pw db).1 = "Invalid username or password." := by
    simp [login, hnone, flashMessage]
  have e2 : flashMessage (login check now2 u.username pw2 db).1 =
      "Invalid password. " ++ toString (5 - (u.failed_login_attempts + 1)) ++
        " attempts remaining before account lockout." := by
    simp [login, hu, is_account_locked_none u now2 hlock, hpw, h5, flashMessage]
  refine ⟨e1, e2, ?_⟩
  rw [e1, e2]
  exact invalid_messages_differ _

/-- Witness for C1 at a concrete database. -/
theorem C1_failure_responses_differ_witness :
    findUser [aliceC1] "bob" = none ∧
    flashMessage (login (fun _ _ => false) 0 "bob" "pw" [aliceC1]).1 ≠
      flashMessage (login (fun _ _ => false) 0 "alice" "x" [aliceC1]).1 :=
  ⟨by decide,
   (C1_failure_responses_differ (fun _ _ => false) 0 0 [aliceC1] "bob" "pw" "x" aliceC1
      (by decide) (by decide) (by decide) rfl (by decide)).2.2⟩

/-! ### Claim C2 -/

/-- A user one failure short of the lockout threshold. -/
def bobC2 : User :=
  { id := 2, username := "bob", email := "bob@example.com", password_hash := "h2",
    full_name := none, failed_login_attempts := 4, account_locked_until := none,
    two_factor_enabled := false, last_login := none }

/-- C2 fails on the code: the locking (5th) failed attempt stores a
failed-login counter of 5, not 0 — the counter is not reset at lock time. -/
theorem C2_counterexample :
    (login (fun _ _ => false) 0 "bob" "pw" [bobC2]).1 = .lockedNow ∧
    (login (fun _ _ => false) 0 "bob" "pw" [bobC2]).2.map User.failed_login_attempts = [5] ∧
    (login (fun _ _ => false) 0 "bob" "pw" [bobC2]).2.map User.failed_login_attempts ≠ [0] := by
  decide

/-- C2 (amended): on a password mismatch the failed-attempt counter is
incremented and persisted; if the incremented counter reaches 5,
lockout-until is set to now + 15 minutes and the counter keeps its
incremented value (5 on the locking attempt — it is not reset to 0 at lock
time); otherwise the response reports 5 − counter remaining attempts. -/
theorem C2_mismatch_persists_counter
    (check : String → String → Bool) (now : Int) (db : List User)
    (pw : String) (u : User)
    (hu : findUser db u.username = some u)
    (hlock : u.account_locked_until = none)
    (hpw : check u.password_hash pw = false) :
    (5 ≤ u.failed_login_attempts + 1 →
      (login check now u.username pw db).1 = .lockedNow ∧
      findUser (login check now u.username pw db).2 u.username =
        some { u with failed_login_attempts := u.failed_login_attempts + 1,
                      account_locked_until := some (now + 15 * 60) }) ∧
    (u.failed_login_attempts + 1 < 5 →
      (login check now u.username pw db).1 =
        .wrongPassword (5 - (u.failed_login_attempts + 1)) ∧
      findUser (login check now u.username pw db).2 u.username =
        some { u with failed_login_attempts := u.failed_login_attempts + 1 }) := by
  have step1 : findUser (storeUser db u) u.username = some u :=
    findUser_storeUser db u.username u u hu rfl rfl
  constructor
  · intro hge
    have hfix : login check now u.username pw db =
        (.lockedNow, storeUser (storeUser db u)
          { u with failed_login_attempts := u.failed_login_attempts + 1,
                   account_locked_until := some (now + 15 * 60) }) := by
      simp [login, hu, is_account_locked_none u now hlock, hpw, hge]
    rw [hfix]
    exact ⟨rfl, findUser_storeUser _ u.username u _ step1 (by simp) (by simp)⟩
  · intro hlt
    have h5 : ¬ (5 ≤ u.failed_login_attempts + 1) := by omega
    have hfix : login check now u.username pw db =
        (.wrongPassword (5 - (u.failed_login_attempts + 1)), storeUser (storeUser db u)
          { u with failed_login_attempts := u.failed_login_attempts + 1 }) := by
      simp [login, hu, is_account_locked_none u now hlock, hpw, h5]
    rw [hfix]
    exact ⟨rfl, findUser_storeUser _ u.username u _ step1 (by simp) (by simp)⟩

/-- Witness for C2 at a concrete database (the locking 5th attempt). -/
theorem C2_mismatch_persists_counter_witness :
    5 ≤ bobC2.failed_login_attempts + 1 ∧
    (login (fun _ _ => false) 0 "bob" "pw" [bobC2]).1 = .lockedNow ∧
    findUser (login (fun _ _ => false) 0 "bob" "pw" [bobC2]).2 "bob" =
      some { bobC2 with failed_login_attempts := 5,
                        account_locked_until := some 900 } :=
  ⟨by decide,
   (C2_mismatch_persists_counter (fun _ _ => false) 0 [bobC2] "pw" bobC2
      (by decide) (by decide) rfl).1 (by decide)⟩

/-! ### Claim C4 -/

/-- A user currently locked out with 90 seconds remaining. -/
def carolC4 : User :=
  { id := 3, username := "carol", email := "carol@example.com", password_hash := "h3",
    full_name := none, failed_login_attempts := 0, account_locked_until := some 90,
    two_factor_enabled := false, last_login := none }

/-- C4 fails on the code: with 90 seconds of lockout remaining the route
reports 1 minute — `int(seconds/60)` truncates — while the ceiling of
90/60 is 2. -/
theorem C4_counterexample :
    (login (fun _ _ => false) 0 "carol" "pw" [carolC4]).1 = .lockedOut 1 ∧
    (90 + 59) / 60 = (2 : Int) ∧
    LoginOutcome.lockedOut 1 ≠ LoginOutcome.lockedOut 2 := by decide

/-- C4 (amended): a login attempt against an account whose lockout-until is
still in the future is rejected reporting the remaining lockout minutes as
the floor (truncation) of remaining-seconds/60, and the password check is
not attempted: the response is independent of the submitted password and
of the password-hash checker. -/
theorem C4_locked_rejects_with_floor_minutes
    (check : String → String → Bool) (now t : Int) (pw : String)
    (db : List User) (u : User)
    (hu : findUser db u.username = some u)
    (hl : u.account_locked_until = some t)
    (hfut : now < t) :
    (login check now u.username pw db).1 = .lockedOut (Int.tdiv (t - now) 60) ∧
    ∀ check2 pw2, login check2 now u.username pw2 db = login check now u.username pw db := by
  have hfix : ∀ (c : String → String → Bool) (p : String),
      login c now u.username p db =
        (.lockedOut (Int.tdiv (t - now) 60), storeUser db u) := by
    intro c p
    simp [login, hu, is_account_locked_active u now t hl hfut, hl]
  exact ⟨by rw [hfix], fun c2 p2 => by rw [hfix, hfix]⟩

/-- Witness for C4 at a concrete database. -/
theorem C4_locked_rejects_with_floor_minutes_witness :
    (0 : Int) < 90 ∧
    (login (fun _ _ => false) 0 "carol" "pw" [carolC4]).1 =
      .lockedOut (Int.tdiv (90 - 0) 60) :=
  ⟨by decide,
   (C4_locked_rejects_with_floor_minutes (fun _ _ => false) 0 90 "pw" [carolC4] carolC4
      (by decide) rfl (by decide)).1⟩

/-! ### Claim C8 -/

/-- C8: starting from a clean single-user account, five wrong-password
attempts leave the account locked until exactly 15 minutes after the 5th
attempt, and a 6th attempt inside the window is rejected as locked with
the stored state unchanged — for every checker and submitted password, so
the 6th attempt never consults the password. -/
theorem C8_fifth_failure_locks_sixth_rejected
    (check : String → String → Bool) (u0 : User)
    (t1 t2 t3 t4 t5 t6 : Int) (pw1 pw2 pw3 pw4 pw5 : String)
    (h0f : u0.failed_login_attempts = 0)
    (h0l : u0.account_locked_until = none)
    (hw1 : check u0.password_hash pw1 = false)
    (hw2 : check u0.password_hash pw2 = false)
    (hw3 : check u0.password_hash pw3 = false)
    (hw4 : check u0.password_hash pw4 = false)
    (hw5 : check u0.password_hash pw5 = false)
    (h6 : t6 < t5 + 15 * 60) :
    login check t5 u0.username pw5
        (login check t4 u0.username pw4
          (login check t3 u0.username pw3
            (login check t2 u0.username pw2
              (login check t1 u0.username pw1 [u0]).2).2).2).2 =
      (.lockedNow,
       [{ u0 with failed_login_attempts := 5,
                  account_locked_until := some (t5 + 15 * 60) }]) ∧
    ∀ (check2 : String → String → Bool) (pw6 : String),
      login check2 t6 u0.username pw6
          [{ u0 with failed_login_attempts := 5,
                     account_locked_until := some (t5 + 15 * 60) }] =
        (.lockedOut (Int.tdiv (t5 + 15 * 60 - t6) 60),
         [{ u0 with failed_login_attempts := 5,
                    account_locked_until := some (t5 + 15 * 60) }]) := by
  have p1 : (login check t1 u0.username pw1 [u0]).2 =
      [{ u0 with failed_login_attempts := 1 }] := by
    have h := login_wrong_single check t1 pw1 u0 h0l hw1 (by omega)
    simpa [h0f] using congrArg Prod.snd h
  have p2 : (login check t2 u0.username pw2 [{ u0 with failed_login_attempts := 1 }]).2 =
      [{ u0 with failed_login_attempts := 2 }] := by
    have h := login_wrong_single check t2 pw2 { u0 with failed_login_attempts := 1 }
      (by simp [h0l]) (by simpa using hw2) (by simp)
    simpa using congrArg Prod.snd h
  have p3 : (login check t3 u0.username pw3 [{ u0 with failed_login_attempts := 2 }]).2 =
      [{ u0 with failed_login_attempts := 3 }] := by
    have h := login_wrong_single check t3 pw3 { u0 with failed_login_attempts := 2 }
      (by simp [h0l]) (by simpa using hw3) (by simp)
    simpa using congrArg Prod.snd h
  have p4 : (login check t4 u0.username pw4 [{ u0 with failed_login_attempts := 3 }]).2 =
      [{ u0 with failed_login_attempts := 4 }] := by
    have h := login_wrong_single check t4 pw4 { u0 with failed_login_attempts := 3 }
      (by simp [h0l]) (by simpa using hw4) (by simp)
    simpa using congrArg Prod.snd h
  constructor
  · rw [p1, p2, p3, p4]
    have h := login_wrong_fifth check t5 pw5 { u0 with failed_login_attempts := 4 }
      (by simp [h0l]) (by simpa using hw5) (by simp)
    simpa using h
  · intro check2 pw6
    have h := login_locked_single check2 t6 pw6
      { u0 with failed_login_attempts := 5, account_locked_until := some (t5 + 15 * 60) }
      (t5 + 15 * 60) (by simp) h6
    simpa using h

/-- A clean account for the C8 witness. -/
def daveC8 : User :=
  { id := 4, username := "dave", email := "dave@example.com", password_hash := "h4",
    full_name := none, failed_login_attempts := 0, account_locked_until := none,
    two_factor_enabled := false, last_login := none }

/-- Witness for C8 at a concrete account and concrete times. -/
theorem C8_fifth_failure_locks_sixth_rejected_witness :
    login (fun _ _ => false) 50 "dave" "e"
        (login (fun _ _ => false) 40 "dave" "d"
          (login (fun _ _ => false) 30 "dave" "c"
            (login (fun _ _ => false) 20 "dave" "b"
              (login (fun _ _ => false) 10 "dave" "a" [daveC8]).2).2).2).2 =
      (.lockedNow,
       [{ daveC8 with failed_login_attempts := 5,
                      account_locked_until := some (50 + 15 * 60) }]) ∧
    login (fun _ _ => true) 60 "dave" "anything"
        [{ daveC8 with failed_login_attempts := 5,
                       account_locked_until := some (50 + 15 * 60) }] =
      (.lockedOut (Int.tdiv (50 + 15 * 60 - 60) 60),
       [{ daveC8 with failed_login_attempts := 5,
                      account_locked_until := some (50 + 15 * 60) }]) := by
  have h := C8_fifth_failure_locks_sixth_rejected (fun _ _ => false) daveC8
    10 20 30 40 50 60 "a" "b" "c" "d" "e" rfl rfl rfl rfl rfl rfl rfl (by decide)
  exact ⟨h.1, h.2 (fun _ _ => true) "anything"⟩

/-! ### Claim C9 -/

/-- C9: the counter-reset invariant. (a) When the login-time lock check
finds the lockout expired, the user row is rewritten (and committed by
`is_account_locked`) with counter 0 and the lockout cleared. (b) When the
password check succeeds, the committed user row has counter 0 and no
lockout, whether or not 2FA is enabled. -/
theorem C9_counter_reset_invariant
    (check : String → String → Bool) (now : Int) (db : List User)
    (pw : String) (u : User) :
    (∀ t : Int, u.account_locked_until = some t → t ≤ now →
      u.is_account_locked now =
        (false, { u with account_locked_until := none, failed_login_attempts := 0 })) ∧
    (findUser db u.username = some u →
     (u.is_account_locked now).1 = false →
     check u.password_hash pw = true →
     ∃ u', findUser (login check now u.username pw db).2 u.username = some u' ∧
       u'.failed_login_attempts = 0 ∧ u'.account_locked_until = none) := by
  constructor
  · intro t hl hpast
    exact is_account_locked_expired u now t hl hpast
  · intro hu hnl hpw
    have step1 : ∀ u1 : User, u1.id = u.id → u1.username = u.username →
        findUser (storeUser db u1) u.username = some u1 := by
      intro u1 hid hname
      exact findUser_storeUser db u.username u u1 hu hid hname
    rcases hcase : u.account_locked_until with _ | t
    · have hlk := is_account_locked_none u now hcase
      by_cases htf : u.two_factor_enabled
      · have hfix : (login check now u.username pw db).2 =
            storeUser (storeUser db u)
              { u with failed_login_attempts := 0, account_locked_until := none } := by
          simp [login, hu, hlk, hpw, htf]
        rw [hfix]
        exact ⟨_, findUser_storeUser _ u.username u _
          (step1 u rfl rfl) (by simp) (by simp), by simp, by simp⟩
      · have hfix : (login check now u.username pw db).2 =
            storeUser (storeUser db u)
              { u with failed_login_attempts := 0, account_locked_until := none,
                       last_login := some now } := by
          simp [login, hu, hlk, hpw, htf]
        rw [hfix]
        exact ⟨_, findUser_storeUser _ u.username u _
          (step1 u rfl rfl) (by simp) (by simp), by simp, by simp⟩
    · have ht : ¬ now < t := by
        intro hlt
        rw [is_account_locked_active u now t hcase hlt] at hnl
        simp at hnl
      have hlk := is_account_locked_expired u now t hcase (by omega)
      by_cases htf : u.two_factor_enabled
      · have hfix : (login check now u.username pw db).2 =
            storeUser
              (storeUser db { u with account_locked_until := none, failed_login_attempts := 0 })
              { u with failed_login_attempts := 0, account_locked_until := none } := by
          simp [login, hu, hlk, hpw, htf]
        rw [hfix]
        exact ⟨_, findUser_storeUser _ u.username
          { u with account_locked_until := none, failed_login_attempts := 0 } _
          (step1 _ (by simp) (by simp)) (by simp) (by simp), by simp, by simp⟩
      · have hfix : (login check now u.username pw db).2 =
            storeUser
              (storeUser db { u with account_locked_until := none, failed_login_attempts := 0 })
              { u with failed_login_attempts := 0, account_locked_until := none,
                       last_login := some now } := by
          simp [login, hu, hlk, hpw, htf]
        rw [hfix]
        exact ⟨_, findUser_storeUser _ u.username
          { u with account_locked_until := none, failed_login_attempts := 0 } _
          (step1 _ (by simp) (by simp)) (by simp) (by simp), by simp, by simp⟩

/-- An account with an expired lockout and a nonzero counter, for the C9
witness. -/
def erinC9 : User :=
  { id := 5, username := "erin", email := "erin@example.com", password_hash := "h5",
    full_name := none, failed_login_attempts := 3, account_locked_until := some 100,
    two_factor_enabled := false, last_login := none }

/-- Witness for C9: at time 200 the lockout of `erinC9` has expired, so the
lock check clears it, and a successful password leaves a stored counter
of 0. -/
theorem C9_counter_reset_invariant_witness :
    erinC9.account_locked_until = some 100 ∧ (100 : Int) ≤ 200 ∧
    erinC9.is_account_locked 200 =
      (false, { erinC9 with account_locked_until := none, failed_login_attempts := 0 }) ∧
    ∃ u', findUser (login (fun _ _ => true) 200 "erin" "pw" [erinC9]).2 "erin" = some u' ∧
      u'.failed_login_attempts = 0 ∧ u'.account_locked_until = none :=
  have h := C9_counter_reset_invariant (fun _ _ => true) 200 [erinC9] "pw" erinC9
  ⟨rfl, by decide, h.1 100 rfl (by decide), h.2 (by decide) (by decide) rfl⟩

/-! ### Claim C3 -/

/-- An empty store for concrete task-creation runs. -/
def emptyStore : Store :=
  { tasks := [], reminders := [], progress := [], nextTaskId := 1, nextReminderId := 1 }

/-- C3 states the intent of the spec but the code has a slip: a past deadline is
rejected, yet for a deadline two days ahead the derived-reminder check
compares the naive `reminder_time_utc` with the aware `now_utc`, which
raises `TypeError` in Python — the task is already committed, so the run
ends with the task stored, no reminder at all, and an error flash instead
of success. -/
theorem C3_new_task_commits_task_but_never_a_reminder :
    new_task 7 "essay" none "general" "medium" (-1) 0 0 emptyStore =
      (emptyStore, .validationError) ∧
    new_task 7 "essay" none "general" "medium" 172800 0 0 emptyStore =
      ({ emptyStore with
          tasks := [{ id := 1, title := "essay", description := none, category := "general",
                      priority := "medium", status := "pending", deadline := 172800,
                      created_at := 0, updated_at := 0, completed_at := none, user_id := 7 }],
          nextTaskId := 2 }, .errorFlash) ∧
    (new_task 7 "essay" none "general" "medium" 172800 0 0 emptyStore).1.reminders = [] := by
  decide

/-! ### More helper lemmas -/

theorem find_replace_by_id {α : Type} (p : α → Bool) (b : α) (l : List α) (a : α)
    (h : l.find? p = some a) (hb : p b = true) :
    (l.map (fun x => if p x then b else x)).find? p = some b := by
  have hg : ∀ x, p (if p x then b else x) = p x := by
    intro x
    by_cases hx : p x = true
    · simp [hx, hb]
    · simp only [Bool.not_eq_true] at hx
      simp [hx]
  rw [find_map_pred p _ l hg, h]
  have ha := List.find?_some h
  simp [ha]

/-! ### Claim C6 -/

theorem markSeen_pred_stable (rid : Nat) :
    ∀ x : Reminder, ((markSeenUpd rid x).id == rid) = (x.id == rid) := by
  intro x
  by_cases hx : (x.id == rid) = true
  · simp [markSeenUpd, hx]
  · simp only [Bool.not_eq_true] at hx
    simp [markSeenUpd, hx]

theorem markSeenUpd_idem (rid : Nat) (l : List Reminder) :
    (l.map (markSeenUpd rid)).map (markSeenUpd rid) = l.map (markSeenUpd rid) := by
  rw [List.map_map]
  apply List.map_congr_left
  intro x _
  by_cases hx : (x.id == rid) = true
  · simp [Function.comp, markSeenUpd, hx]
  · simp only [Bool.not_eq_true] at hx
    simp [Function.comp, markSeenUpd, hx]

theorem tickUpd_not_due (now : Int) (x : Reminder) :
    reminderDue now (tickUpd now x) = false := by
  by_cases h : reminderDue now x = true
  · unfold tickUpd
    rw [if_pos h]
    simp [reminderDue]
  · unfold tickUpd
    rw [if_neg h]
    simpa using h

/-- C6: the second of two identical mark-seen calls returns the unchanged
store and still reports success, and a second poller tick run at the same
instant as a first one emits no notifications and changes no state. -/
theorem C6_mark_seen_and_tick_idempotent (uid rid : Nat) (now : Int) (s : Store) :
    ((mark_reminder_seen uid rid s).2 = .ok →
      mark_reminder_seen uid rid (mark_reminder_seen uid rid s).1 =
        ((mark_reminder_seen uid rid s).1, .ok)) ∧
    check_reminders now (check_reminders now s).1 = ((check_reminders now s).1, []) := by
  constructor
  · intro hok
    rcases hfind : s.reminders.find? (fun r => r.id == rid) with _ | r
    · simp [mark_reminder_seen, hfind] at hok
    · by_cases hown : r.user_id = uid
      · have hr := List.find?_some hfind
        have hfix : mark_reminder_seen uid rid s =
            ({ s with reminders := s.reminders.map (markSeenUpd rid) }, .ok) := by
          simp [mark_reminder_seen, hfind, hown]
        have hfind2 :
            (s.reminders.map (markSeenUpd rid)).find? (fun q => q.id == rid) =
              some { r with is_sent := true } := by
          rw [find_map_pred (fun q => q.id == rid) (markSeenUpd rid) s.reminders
                (markSeen_pred_stable rid), hfind]
          simp [markSeenUpd, hr]
        have hidem := markSeenUpd_idem rid s.reminders
        rw [hfix]
        generalize hL : s.reminders.map (markSeenUpd rid) = L at hfind2 hidem
        have hfix2 : mark_reminder_seen uid rid { s with reminders := L } =
            ({ s with reminders := L.map (markSeenUpd rid) }, .ok) := by
          simp [mark_reminder_seen, hfind2, hown]
        rw [hfix2, hidem]
      · simp [mark_reminder_seen, hfind, hown] at hok
  · by_cases hemp : (s.reminders.filter (reminderDue now)).isEmpty = true
    · have h1 : check_reminders now s = (s, []) := by
        simp [check_reminders, hemp]
      rw [h1]
      exact h1
    · have h1 : check_reminders now s =
          ({ s with reminders := s.reminders.map (tickUpd now) },
           s.reminders.filter (reminderDue now)) := by
        simp [check_reminders, hemp]
      have hfil : (s.reminders.map (tickUpd now)).filter (reminderDue now) = [] := by
        rw [List.filter_eq_nil_iff]
        intro a ha
        rcases List.mem_map.mp ha with ⟨x, _, rfl⟩
        simp [tickUpd_not_due now x]
      rw [h1]
      simp [check_reminders, hfil]

/-- A store with one due, unsent reminder for the C6 witness. -/
def storeC6 : Store :=
  { tasks := [], progress := [], nextTaskId := 1, nextReminderId := 2,
    reminders := [{ id := 1, title := "r", message := none, reminder_time := 5,
                    is_sent := false, user_id := 9, task_id := none }] }

/-- Witness for C6 at a concrete store. -/
theorem C6_mark_seen_and_tick_idempotent_witness :
    (mark_reminder_seen 9 1 storeC6).2 = .ok ∧
    mark_reminder_seen 9 1 (mark_reminder_seen 9 1 storeC6).1 =
      ((mark_reminder_seen 9 1 storeC6).1, .ok) ∧
    check_reminders 10 (check_reminders 10 storeC6).1 = ((check_reminders 10 storeC6).1, []) :=
  have h := C6_mark_seen_and_tick_idempotent 9 1 10 storeC6
  ⟨by decide, h.1 (by decide), h.2⟩

/-! ### Claim C7 -/

/-- C7: appending a progress record with percentage 100 forces the task to
completed with a non-null completed_at; a positive percentage below 100 on
a pending task advances it to in_progress; any other percentage leaves
status and completed_at unchanged.  The progress row is appended in every
case. -/
theorem C7_progress_status_transitions
    (uid tid : Nat) (now : Int) (pct : Nat) (notes : Option String)
    (s : Store) (task : Task)
    (hfind : s.tasks.find? (fun t => t.id == tid) = some task)
    (hown : task.user_id = uid) :
    (task_progress uid tid now pct notes s).1.progress =
      s.progress ++ [{ progress_percentage := pct, notes := notes, recorded_at := now,
                       user_id := uid, task_id := task.id }] ∧
    ∃ task',
      (task_progress uid tid now pct notes s).1.tasks.find? (fun t => t.id == tid) =
        some task' ∧
      (pct = 100 → task'.status = "completed" ∧ task'.completed_at = some now) ∧
      (pct ≠ 100 → 0 < pct → task.status = "pending" →
        task'.status = "in_progress" ∧ task'.completed_at = task.completed_at) ∧
      (pct ≠ 100 → (pct = 0 ∨ task.status ≠ "pending") →
        task'.status = task.status ∧ task'.completed_at = task.completed_at) := by
  have hidt := List.find?_some hfind
  by_cases h100 : pct = 100
  · subst h100
    have hfix : task_progress uid tid now 100 notes s =
        ({ s with
            tasks := s.tasks.map (fun t => if t.id == tid then
              { task with status := "completed", completed_at := some now, updated_at := now }
              else t),
            progress := s.progress ++
              [{ progress_percentage := 100, notes := notes, recorded_at := now,
                 user_id := uid, task_id := task.id }] }, .ok) := by
      simp [task_progress, hfind, hown]
    rw [hfix]
    refine ⟨rfl, { task with status := "completed", completed_at := some now, updated_at := now },
      ?_, by simp, by simp, by simp⟩
    exact find_replace_by_id _ _ _ task hfind (by simpa using hidt)
  · by_cases hadv : (decide (0 < pct) && task.status == "pending") = true
    · have hfix : task_progress uid tid now pct notes s =
          ({ s with
              tasks := s.tasks.map (fun t => if t.id == tid then
                { task with status := "in_progress", updated_at := now } else t),
              progress := s.progress ++
                [{ progress_percentage := pct, notes := notes, recorded_at := now,
                   user_id := uid, task_id := task.id }] }, .ok) := by
        simp [task_progress, hfind, hown, h100, hadv]
      rw [hfix]
      have hpend : task.status = "pending" := by
        have := (Bool.and_eq_true _ _).mp hadv
        simpa using this.2
      refine ⟨rfl, { task with status := "in_progress", updated_at := now },
        ?_, by simp [h100], by simp, ?_⟩
      · exact find_replace_by_id _ _ _ task hfind (by simpa using hidt)
      · intro _ hother
        rcases hother with h0 | hnp
        · have := (Bool.and_eq_true _ _).mp hadv
          simp [h0] at this
        · exact absurd hpend hnp
    · have hfix : task_progress uid tid now pct notes s =
          ({ s with
              tasks := s.tasks.map (fun t => if t.id == tid then
                { task with updated_at := now } else t),
              progress := s.progress ++
                [{ progress_percentage := pct, notes := notes, recorded_at := now,
                   user_id := uid, task_id := task.id }] }, .ok) := by
        simp [task_progress, hfind, hown, h100, hadv]
      rw [hfix]
      refine ⟨rfl, { task with updated_at := now },
        ?_, by simp [h100], ?_, by simp⟩
      · exact find_replace_by_id _ _ _ task hfind (by simpa using hidt)
      · intro _ hpos hpend
        simp [hpos, hpend] at hadv

/-- A store with one pending task for the C7 witness. -/
def storeC7 : Store :=
  { reminders := [], progress := [], nextTaskId := 2, nextReminderId := 1,
    tasks := [{ id := 1, title := "t", description := none, category := "general",
                priority := "medium", status := "pending", deadline := 100,
                created_at := 0, updated_at := 0, completed_at := none, user_id := 9 }] }

/-- Witness for C7: recording 100 percent on a pending task completes it and
stamps completed_at. -/
theorem C7_progress_status_transitions_witness :
    (task_progress 9 1 50 100 none storeC7).1.progress =
      storeC7.progress ++
        [{ progress_percentage := 100, notes := none, recorded_at := 50,
           user_id := 9, task_id := 1 }] ∧
    ∃ task',
      (task_progress 9 1 50 100 none storeC7).1.tasks.find? (fun t => t.id == 1) =
        some task' ∧ task'.status = "completed" ∧ task'.completed_at = some 50 :=
  have h := C7_progress_status_transitions 9 1 50 100 none storeC7
    ((storeC7.tasks.get ⟨0, by decide⟩)) (by decide) (by decide)
  ⟨h.1, h.2.choose, h.2.choose_spec.1, (h.2.choose_spec.2.1 rfl).1, (h.2.choose_spec.2.1 rfl).2⟩

/-! ### Claim C10 -/

/-- C10: mark-seen has no due-ness precondition — for a reminder owned by
the caller whose fire time is still strictly in the future, the call
succeeds and stores sent = true, and the reminder disappears from the
upcoming-unsent listing even though its fire time has not arrived. -/
theorem C10_mark_seen_no_due_precondition
    (uid rid : Nat) (now : Int) (s : Store) (r : Reminder)
    (hfind : s.reminders.find? (fun q => q.id == rid) = some r)
    (hown : r.user_id = uid)
    (_hfut : now < r.reminder_time) :
    (mark_reminder_seen uid rid s).2 = .ok ∧
    (mark_reminder_seen uid rid s).1.reminders.find? (fun q => q.id == rid) =
      some { r with is_sent := true } ∧
    ∀ q ∈ upcoming_reminders uid now (mark_reminder_seen uid rid s).1, q.id ≠ rid := by
  have hfix : mark_reminder_seen uid rid s =
      ({ s with reminders := s.reminders.map (markSeenUpd rid) }, .ok) := by
    simp [mark_reminder_seen, hfind, hown]
  have hr := List.find?_some hfind
  refine ⟨by rw [hfix], ?_, ?_⟩
  · simp only [hfix]
    rw [find_map_pred (fun q => q.id == rid) (markSeenUpd rid) s.reminders
          (markSeen_pred_stable rid), hfind]
    simp [markSeenUpd, hr]
  · intro q hq hqid
    rw [hfix] at hq
    simp only [upcoming_reminders, List.mem_mergeSort] at hq
    rcases List.mem_filter.mp hq with ⟨hmem, hpred⟩
    rcases List.mem_map.mp hmem with ⟨x, _, rfl⟩
    by_cases hx : (x.id == rid) = true
    · rw [markSeenUpd, if_pos hx] at hpred
      simp at hpred
    · rw [markSeenUpd, if_neg hx] at hqid
      simp only [Bool.not_eq_true] at hx
      exact absurd hqid (by simpa using hx)

/-- A store with one future, unsent reminder for the C10 witness. -/
def storeC10 : Store :=
  { tasks := [], progress := [], nextTaskId := 1, nextReminderId := 2,
    reminders := [{ id := 1, title := "r", message := none, reminder_time := 1000,
                    is_sent := false, user_id := 9, task_id := none }] }

/-- Witness for C10: marking a reminder 990 seconds before its fire time
succeeds and removes it from the upcoming listing. -/
theorem C10_mark_seen_no_due_precondition_witness :
    (mark_reminder_seen 9 1 storeC10).2 = .ok ∧
    ∀ q ∈ upcoming_reminders 9 10 (mark_reminder_seen 9 1 storeC10).1, q.id ≠ 1 :=
  have h := C10_mark_seen_no_due_precondition 9 1 10 storeC10
    { id := 1, title := "r", message := none, reminder_time := 1000,
      is_sent := false, user_id := 9, task_id := none } (by decide) (by decide) (by decide)
  ⟨h.1, h.2.2⟩

/-! ### Claim C5 -/

/-- Every stored reminder id is below the autoincrement counter — the
primary-key discipline of the database. -/
def remIdsBounded (s : Store) : Prop :=
  ∀ r ∈ s.reminders, r.id < s.nextReminderId

/-- Every stored reminder with the given id has sent = true. -/
def ridAllSent (rid : Nat) (s : Store) : Prop :=
  ∀ r ∈ s.reminders, r.id = rid → r.is_sent = true

theorem preserve_eq (rid : Nat) (s s' : Store)
    (hrem : s'.reminders = s.reminders) (hnext : s'.nextReminderId = s.nextReminderId)
    (hb : remIdsBounded s) (hrid : rid < s.nextReminderId) (hall : ridAllSent rid s) :
    remIdsBounded s' ∧ rid < s'.nextReminderId ∧ ridAllSent rid s' := by
  refine ⟨?_, by rw [hnext]; exact hrid, ?_⟩
  · intro r hr
    rw [hrem] at hr
    rw [hnext]
    exact hb r hr
  · intro r hr
    rw [hrem] at hr
    exact hall r hr

theorem preserve_map (rid : Nat) (s s' : Store) (f : Reminder → Reminder)
    (hrem : s'.reminders = s.reminders.map f)
    (hnext : s'.nextReminderId = s.nextReminderId)
    (hid : ∀ x, (f x).id = x.id)
    (hsent : ∀ x, x.is_sent = true → (f x).is_sent = true)
    (hb : remIdsBounded s) (hrid : rid < s.nextReminderId) (hall : ridAllSent rid s) :
    remIdsBounded s' ∧ rid < s'.nextReminderId ∧ ridAllSent rid s' := by
  refine ⟨?_, by rw [hnext]; exact hrid, ?_⟩
  · intro r hr
    rw [hrem] at hr
    rcases List.mem_map.mp hr with ⟨x, hx, rfl⟩
    rw [hid, hnext]
    exact hb x hx
  · intro r hr hr1
    rw [hrem] at hr
    rcases List.mem_map.mp hr with ⟨x, hx, rfl⟩
    rw [hid] at hr1
    exact hsent x (hall x hx hr1)

theorem preserve_filter (rid : Nat) (s s' : Store) (p : Reminder → Bool)
    (hrem : s'.reminders = s.reminders.filter p)
    (hnext : s'.nextReminderId = s.nextReminderId)
    (hb : remIdsBounded s) (hrid : rid < s.nextReminderId) (hall : ridAllSent rid s) :
    remIdsBounded s' ∧ rid < s'.nextReminderId ∧ ridAllSent rid s' := by
  refine ⟨?_, by rw [hnext]; exact hrid, ?_⟩
  · intro r hr
    rw [hrem] at hr
    rw [hnext]
    exact hb r (List.mem_filter.mp hr).1
  · intro r hr
    rw [hrem] at hr
    exact hall r (List.mem_filter.mp hr).1

theorem preserve_append (rid : Nat) (s s' : Store) (r : Reminder)
    (hrem : s'.reminders = s.reminders ++ [r])
    (hid : r.id = s.nextReminderId)
    (hnext : s'.nextReminderId = s.nextReminderId + 1)
    (hb : remIdsBounded s) (hrid : rid < s.nextReminderId) (hall : ridAllSent rid s) :
    remIdsBounded s' ∧ rid < s'.nextReminderId ∧ ridAllSent rid s' := by
  refine ⟨?_, by rw [hnext]; omega, ?_⟩
  · intro x hx
    rw [hrem] at hx
    rw [hnext]
    rcases List.mem_append.mp hx with hold | hnew
    · have := hb x hold
      omega
    · rcases List.mem_singleton.mp hnew with rfl
      omega
  · intro x hx hx1
    rw [hrem] at hx
    rcases List.mem_append.mp hx with hold | hnew
    · exact hall x hold hx1
    · rcases List.mem_singleton.mp hnew with rfl
      omega

/-- One operation preserves the id bound and the all-sent property of any
id already below the counter. -/
theorem applyOp_sent_step (op : Op) (s : Store) (rid : Nat)
    (hb : remIdsBounded s) (hrid : rid < s.nextReminderId) (hall : ridAllSent rid s) :
    remIdsBounded (applyOp op s) ∧ rid < (applyOp op s).nextReminderId ∧
      ridAllSent rid (applyOp op s) := by
  cases op with
  | tick now =>
    by_cases hemp : (s.reminders.filter (reminderDue now)).isEmpty = true
    · have hfix : applyOp (.tick now) s = s := by
        simp [applyOp, check_reminders, hemp]
      exact preserve_eq rid s _ (by rw [hfix]) (by rw [hfix]) hb hrid hall
    · have hfix : applyOp (.tick now) s =
          { s with reminders := s.reminders.map (tickUpd now) } := by
        simp [applyOp, check_reminders, hemp]
      refine preserve_map rid s _ (tickUpd now) (by rw [hfix]) (by rw [hfix]) ?_ ?_ hb hrid hall
      · intro x
        unfold tickUpd
        by_cases hx : reminderDue now x = true
        · rw [if_pos hx]
        · rw [if_neg hx]
      · intro x hx
        unfold tickUpd
        by_cases hdue : reminderDue now x = true
        · rw [if_pos hdue]
        · rw [if_neg hdue]
          exact hx
  | markSeen uid rid2 =>
    rcases hfind : s.reminders.find? (fun r => r.id == rid2) with _ | r
    · have hfix : applyOp (.markSeen uid rid2) s = s := by
        simp [applyOp, mark_reminder_seen, hfind]
      exact preserve_eq rid s _ (by rw [hfix]) (by rw [hfix]) hb hrid hall
    · by_cases hown : r.user_id = uid
      · have hfix : applyOp (.markSeen uid rid2) s =
            { s with reminders := s.reminders.map (markSeenUpd rid2) } := by
          simp [applyOp, mark_reminder_seen, hfind, hown]
        refine preserve_map rid s _ (markSeenUpd rid2) (by rw [hfix]) (by rw [hfix])
          ?_ ?_ hb hrid hall
        · intro x
          unfold markSeenUpd
          by_cases hx : (x.id == rid2) = true
          · rw [if_pos hx]
          · rw [if_neg hx]
        · intro x hx
          unfold markSeenUpd
          by_cases hi : (x.id == rid2) = true
          · rw [if_pos hi]
          · rw [if_neg hi]
            exact hx
      · have hfix : applyOp (.markSeen uid rid2) s = s := by
          simp [applyOp, mark_reminder_seen, hfind, hown]
        exact preserve_eq rid s _ (by rw [hfix]) (by rw [hfix]) hb hrid hall
  | newReminder uid title message tl nl nu =>
    by_cases hv : tl ≤ nl
    · have hfix : applyOp (.newReminder uid title message tl nl nu) s = s := by
        simp [applyOp, new_reminder, PyDateTime.pyLe, hv]
      exact preserve_eq rid s _ (by rw [hfix]) (by rw [hfix]) hb hrid hall
    · have hfix : applyOp (.newReminder uid title message tl nl nu) s =
          { s with
              reminders := s.reminders ++
                [{ id := s.nextReminderId, title := title, message := message,
                   reminder_time := tl - (nl - nu), is_sent := false,
                   user_id := uid, task_id := none }],
              nextReminderId := s.nextReminderId + 1 } := by
        simp [applyOp, new_reminder, PyDateTime.pyLe, PyDateTime.pySub,
          PyDateTime.replaceTzNone, PyDateTime.subDelta, hv]
      exact preserve_append rid s _ _ (by rw [hfix]) rfl (by rw [hfix]) hb hrid hall
  | newTask uid title d c p dl nl nu =>
    by_cases hv : dl ≤ nl
    · have hfix : applyOp (.newTask uid title d c p dl nl nu) s = s := by
        simp [applyOp, new_task, PyDateTime.pyLe, hv]
      exact preserve_eq rid s _ (by rw [hfix]) (by rw [hfix]) hb hrid hall
    · have hfix : applyOp (.newTask uid title d c p dl nl nu) s =
          { s with
              tasks := s.tasks ++
                [{ id := s.nextTaskId, title := title, description := d,
                   category := c, priority := p, status := "pending",
                   deadline := dl - (nl - nu), created_at := nu, updated_at := nu,
                   completed_at := none, user_id := uid }],
              nextTaskId := s.nextTaskId + 1 } := by
        simp [applyOp, new_task, PyDateTime.pyLe, PyDateTime.pySub,
          PyDateTime.replaceTzNone, PyDateTime.subDelta, PyDateTime.pyGt, hv]
      exact preserve_eq rid s _ (by rw [hfix]) (by rw [hfix]) hb hrid hall
  | editTask uid tid title d c p dl nl nu =>
    rcases hfind : s.tasks.find? (fun t => t.id == tid) with _ | task
    · have hfix : applyOp (.editTask uid tid title d c p dl nl nu) s = s := by
        simp [applyOp, edit_task, hfind]
      exact preserve_eq rid s _ (by rw [hfix]) (by rw [hfix]) hb hrid hall
    · by_cases hown : task.user_id = uid
      · by_cases hval : (¬task.status = "completed" ∧ dl ≤ nl)
        · have hfix : applyOp (.editTask uid tid title d c p dl nl nu) s = s := by
            simp [applyOp, edit_task, hfind, hown, PyDateTime.pySub,
              PyDateTime.replaceTzNone, PyDateTime.pyLe, PyDateTime.subDelta, hval]
          exact preserve_eq rid s _ (by rw [hfix]) (by rw [hfix]) hb hrid hall
        · have hfix : (applyOp (.editTask uid tid title d c p dl nl nu) s).reminders =
                s.reminders ∧
              (applyOp (.editTask uid tid title d c p dl nl nu) s).nextReminderId =
                s.nextReminderId := by
            simp [applyOp, edit_task, hfind, hown, PyDateTime.pySub,
              PyDateTime.replaceTzNone, PyDateTime.pyLe, PyDateTime.subDelta, hval,
              storeTask]
          exact preserve_eq rid s _ hfix.1 hfix.2 hb hrid hall
      · have hfix : applyOp (.editTask uid tid title d c p dl nl nu) s = s := by
          simp [applyOp, edit_task, hfind, hown]
        exact preserve_eq rid s _ (by rw [hfix]) (by rw [hfix]) hb hrid hall
  | progressUpdate uid tid now pct notes =>
    have hfix : (applyOp (.progressUpdate uid tid now pct notes) s).reminders =
          s.reminders ∧
        (applyOp (.progressUpdate uid tid now pct notes) s).nextReminderId =
          s.nextReminderId := by
      rcases hfind : s.tasks.find? (fun t => t.id == tid) with _ | task
      · simp [applyOp, task_progress, hfind]
      · by_cases hown : task.user_id = uid
        · simp [applyOp, task_progress, hfind, hown]
        · simp [applyOp, task_progress, hfind, hown]
    exact preserve_eq rid s _ hfix.1 hfix.2 hb hrid hall
  | statusUpdate uid tid now st =>
    have hfix : (applyOp (.statusUpdate uid tid now st) s).reminders = s.reminders ∧
        (applyOp (.statusUpdate uid tid now st) s).nextReminderId = s.nextReminderId := by
      rcases hfind : s.tasks.find? (fun t => t.id == tid) with _ | task
      · simp [applyOp, update_task_status, hfind]
      · by_cases hown : task.user_id = uid
        · by_cases hst : (st = "pending" ∨ st = "in_progress" ∨ st = "completed")
          · simp [applyOp, update_task_status, hfind, hown, hst, storeTask]
          · simp [applyOp, update_task_status, hfind, hown, hst]
        · simp [applyOp, update_task_status, hfind, hown]
    exact preserve_eq rid s _ hfix.1 hfix.2 hb hrid hall
  | completeTask uid tid now =>
    have hfix : (applyOp (.completeTask uid tid now) s).reminders = s.reminders ∧
        (applyOp (.completeTask uid tid now) s).nextReminderId = s.nextReminderId := by
      rcases hfind : s.tasks.find? (fun t => t.id == tid) with _ | task
      · simp [applyOp, complete_task, hfind]
      · by_cases hown : task.user_id = uid
        · rcases hlp : latestProgress tid s with _ | p
          · simp [applyOp, complete_task, hfind, hown, hlp, storeTask]
          · by_cases hp : p.progress_percentage = 100
            · simp [applyOp, complete_task, hfind, hown, hlp, hp, storeTask]
            · simp [applyOp, complete_task, hfind, hown, hlp, hp, storeTask]
        · simp [applyOp, complete_task, hfind, hown]
    exact preserve_eq rid s _ hfix.1 hfix.2 hb hrid hall
  | deleteTask uid tid =>
    rcases hfind : s.tasks.find? (fun t => t.id == tid) with _ | task
    · have hfix : applyOp (.deleteTask uid tid) s = s := by
        simp [applyOp, delete_task, hfind]
      exact preserve_eq rid s _ (by rw [hfix]) (by rw [hfix]) hb hrid hall
    · by_cases hown : task.user_id = uid
      · have hfix : (applyOp (.deleteTask uid tid) s).reminders =
              s.reminders.filter (fun r => r.task_id ≠ some tid) ∧
            (applyOp (.deleteTask uid tid) s).nextReminderId = s.nextReminderId := by
          simp [applyOp, delete_task, hfind, hown]
        exact preserve_filter rid s _ _ hfix.1 hfix.2 hb hrid hall
      · have hfix : applyOp (.deleteTask uid tid) s = s := by
          simp [applyOp, delete_task, hfind, hown]
        exact preserve_eq rid s _ (by rw [hfix]) (by rw [hfix]) hb hrid hall
  | deleteReminder uid rid2 =>
    rcases hfind : s.reminders.find? (fun r => r.id == rid2) with _ | r
    · have hfix : applyOp (.deleteReminder uid rid2) s = s := by
        simp [applyOp, delete_reminder, hfind]
      exact preserve_eq rid s _ (by rw [hfix]) (by rw [hfix]) hb hrid hall
    · by_cases hown : r.user_id = uid
      · have hfix : (applyOp (.deleteReminder uid rid2) s).reminders =
              s.reminders.filter (fun q => q.id ≠ rid2) ∧
            (applyOp (.deleteReminder uid rid2) s).nextReminderId = s.nextReminderId := by
          simp [applyOp, delete_reminder, hfind, hown]
        exact preserve_filter rid s _ _ hfix.1 hfix.2 hb hrid hall
      · have hfix : applyOp (.deleteReminder uid rid2) s = s := by
          simp [applyOp, delete_reminder, hfind, hown]
        exact preserve_eq rid s _ (by rw [hfix]) (by rw [hfix]) hb hrid hall

/-- Any sequence of operations preserves the invariant. -/
theorem applyOps_sent_invariant (ops : List Op) (s : Store) (rid : Nat)
    (hb : remIdsBounded s) (hrid : rid < s.nextReminderId) (hall : ridAllSent rid s) :
    remIdsBounded (applyOps ops s) ∧ rid < (applyOps ops s).nextReminderId ∧
      ridAllSent rid (applyOps ops s) := by
  induction ops generalizing s with
  | nil => exact ⟨hb, hrid, hall⟩
  | cons op rest ih =>
    have hstep := applyOp_sent_step op s rid hb hrid hall
    have hfold : applyOps (op :: rest) s = applyOps rest (applyOp op s) := rfl
    rw [hfold]
    exact ih (applyOp op s) hstep.1 hstep.2.1 hstep.2.2

/-- C5: the sent flag is monotonic under every operation of the system —
once a reminder id is observed sent (and ids respect the primary-key
bound), no sequence of poller ticks, mark-seen calls, creations, edits or
deletions ever yields a stored reminder with that id and sent = false. -/
theorem C5_sent_flag_monotonic (s : Store) (rid : Nat) (ops : List Op)
    (hb : ∀ r ∈ s.reminders, r.id < s.nextReminderId)
    (hsent : ∃ r ∈ s.reminders, r.id = rid ∧ r.is_sent = true)
    (hall : ∀ r ∈ s.reminders, r.id = rid → r.is_sent = true) :
    ∀ r ∈ (applyOps ops s).reminders, r.id = rid → r.is_sent = true := by
  rcases hsent with ⟨r0, hr0, hrid0, _⟩
  have hrid : rid < s.nextReminderId := by
    rw [← hrid0]
    exact hb r0 hr0
  exact (applyOps_sent_invariant ops s rid hb hrid hall).2.2

/-- A ledger with one sent and one unsent reminder for the C5 witness. -/
def storeC5 : Store :=
  { tasks := [], progress := [], nextTaskId := 1, nextReminderId := 3,
    reminders :=
      [{ id := 1, title := "sent already", message := none, reminder_time := 50,
         is_sent := true, user_id := 9, task_id := none },
       { id := 2, title := "later", message := none, reminder_time := 500,
         is_sent := false, user_id := 9, task_id := none }] }

/-- A workload touching every kind of reminder state change, for the C5
witness. -/
def opsC5 : List Op :=
  [.tick 100, .markSeen 9 2, .newReminder 9 "fresh" none 900 100 100,
   .newTask 9 "task" none "general" "low" 864000 100 100, .tick 600,
   .deleteReminder 9 2]

/-- Witness for C5: reminder 1 is sent in `storeC5` and stays sent across
the whole workload. -/
theorem C5_sent_flag_monotonic_witness :
    (∀ r ∈ storeC5.reminders, r.id < storeC5.nextReminderId) ∧
    (∀ r ∈ (applyOps opsC5 storeC5).reminders, r.id = 1 → r.is_sent = true) :=
  ⟨by decide,
   C5_sent_flag_monotonic storeC5 1 opsC5 (by decide)
     ⟨storeC5.reminders.get ⟨0, by decide⟩, by decide, by decide, by decide⟩
     (by decide)⟩

end TaskNest
